import Mathlib

/-!
Verification of the physics bridge module (src/components/Physics.tsx): a
synchronization layer between a rigid-body physics simulation (Rapier) and a
retained scene graph (three.js).  The definitions below are a shallow
embedding of the module's pure logic:

* JS numbers are modelled as rationals (ℚ); all arithmetic relevant to the
  theorems below is exact in both models.
* JS `Map` objects (the `bodies`, `colliders`, `events` registries) are
  modelled as association lists with `Map.get`/`Map.set` semantics.
* Scene nodes (three.js `Object3D`) and event callbacks are opaque to the
  bridge; they are represented by natural-number identities.
* The per-frame callback (`useFrame` body) is modelled as a pure state
  transformer over the scene together with an explicit trace of the
  side-effecting operations it performs, in order.
* External collaborator functions that the bridge merely forwards to
  (three.js `Quaternion.setFromEuler`, the engine's `parent()` lookup) are
  taken as parameters.
-/

/-- Rational triple standing for the JS number triples used by three.js
`Vector3` and Rapier `Vector`. -/
structure Vec3 where
  x : ℚ
  y : ℚ
  z : ℚ
deriving DecidableEq

/-- Quaternion components, as in three.js `Quaternion`. -/
structure Quat where
  x : ℚ
  y : ℚ
  z : ℚ
  w : ℚ
deriving DecidableEq

/-- Result of `new Quaternion()` in three.js: the identity quaternion. -/
def identityQuat : Quat := ⟨0, 0, 0, 1⟩

/-- Euler angles (three.js `Euler`); the bridge never inspects them, it only
forwards them to `Quaternion.setFromEuler`. -/
abbrev Euler := Vec3

/-- Shallow embedding of `geometryFromHeightfield` (Physics.tsx:843-883).
Heights are modelled as a total function ℕ → ℚ (the source indexes a
`Float32Array` of length `(nrows+1)*(ncols+1)`); vertex coordinates are kept
as a flat list exactly in push order, as in the source. -/
def geometryFromHeightfield (nrows ncols : ℕ) (heights : ℕ → ℚ)
    (scale : Vec3) : List ℚ × List ℕ :=
  let eltWX : ℚ := 1 / nrows
  let eltWY : ℚ := 1 / ncols
  let vertices :=
    (List.range (ncols + 1)).flatMap fun j =>
      (List.range (nrows + 1)).flatMap fun i =>
        [((j : ℚ) * eltWX - 1/2) * scale.x,
         heights (j * (nrows + 1) + i) * scale.y,
         ((i : ℚ) * eltWY - 1/2) * scale.z]
  let indices :=
    (List.range ncols).flatMap fun j =>
      (List.range nrows).flatMap fun i =>
        let i1 := (i + 0) * (ncols + 1) + (j + 0)
        let i2 := (i + 0) * (ncols + 1) + (j + 1)
        let i3 := (i + 1) * (ncols + 1) + (j + 0)
        let i4 := (i + 1) * (ncols + 1) + (j + 1)
        [i1, i3, i2, i3, i4, i2]
  (vertices, indices)

/-- Index list exactly as the specification states it: `R*C` cells, two
triangles per cell wound `(i1,i3,i2)` then `(i3,i4,i2)`, with corner indices
`i1 = i*(C+1)+j`, `i2 = i*(C+1)+(j+1)`, `i3 = (i+1)*(C+1)+j`,
`i4 = (i+1)*(C+1)+(j+1)`. -/
def heightfieldIndicesSpec (R C : ℕ) : List ℕ :=
  (List.range C).flatMap fun j =>
    (List.range R).flatMap fun i =>
      [i * (C + 1) + j,
       (i + 1) * (C + 1) + j,
       i * (C + 1) + (j + 1),
       (i + 1) * (C + 1) + j,
       (i + 1) * (C + 1) + (j + 1),
       i * (C + 1) + (j + 1)]

/-- Lookup in an association list, with the semantics of JS `Map.get`
(first matching key, `undefined` i.e. `none` when absent). -/
def mapGet {α β : Type} [DecidableEq α] : List (α × β) → α → Option β
  | [], _ => none
  | (a, b) :: rest, k => if a = k then some b else mapGet rest k

/-- Update in an association list, with the semantics of JS `Map.set`:
replace the value in place when the key is present, append otherwise. -/
def mapSet {α β : Type} [DecidableEq α] (m : List (α × β)) (k : α) (v : β) :
    List (α × β) :=
  if (mapGet m k).isSome then
    m.map fun kv => if kv.1 = k then (k, v) else kv
  else
    m ++ [(k, v)]

/-- Registration of a rigid body's scene node, as performed by the layout
effect at Physics.tsx:269-276: `bodies.set(rigidBody.handle, object3d)`.
The function is total and returns the updated registry; the source has no
error path here. -/
def registerBody (bodies : List (ℕ × ℕ)) (handle : ℕ) (node : ℕ) :
    List (ℕ × ℕ) :=
  mapSet bodies handle node

/-- Registration of a collider's scene node, as performed by the layout
effect at Physics.tsx:414-420: `colliders.set(collider.handle, object3d)`. -/
def registerCollider (colliders : List (ℕ × ℕ)) (handle : ℕ) (node : ℕ) :
    List (ℕ × ℕ) :=
  mapSet colliders handle node

/-- Shape parameters as handed to the engine's descriptor constructors
(`RAPIER.ColliderDesc.*`).  Parameter names and order follow the engine's
API: `cuboid(hx, hy, hz)`, `ball(radius)`, `cylinder(halfHeight, radius)`,
`capsule(halfHeight, radius)`, `cone(halfHeight, radius)`. -/
inductive Shape where
  | cuboid (hx hy hz : ℚ)
  | ball (radius : ℚ)
  | cylinder (halfHeight radius : ℚ)
  | capsule (halfHeight radius : ℚ)
  | cone (halfHeight radius : ℚ)
deriving DecidableEq

/-- Engine collider descriptor.  `friction`, `restitution`, `density` are
`none` while the corresponding setter has not been called, in which case the
engine's built-in default applies; `activeEvents` is the CONTACT_EVENTS
flag, off on a freshly constructed descriptor. -/
structure ColliderDesc where
  shape : Shape
  translation : Vec3
  rotation : Quat
  friction : Option ℚ
  restitution : Option ℚ
  density : Option ℚ
  activeEvents : Bool
deriving DecidableEq

/-- Freshly constructed engine descriptor for a shape: identity offset pose,
no material overrides, contact events off. -/
def ColliderDesc.ofShape (s : Shape) : ColliderDesc :=
  { shape := s
    translation := ⟨0, 0, 0⟩
    rotation := identityQuat
    friction := none
    restitution := none
    density := none
    activeEvents := false }

def ColliderDesc.cuboid (hx hy hz : ℚ) : ColliderDesc :=
  ColliderDesc.ofShape (Shape.cuboid hx hy hz)

def ColliderDesc.ball (radius : ℚ) : ColliderDesc :=
  ColliderDesc.ofShape (Shape.ball radius)

def ColliderDesc.cylinder (halfHeight radius : ℚ) : ColliderDesc :=
  ColliderDesc.ofShape (Shape.cylinder halfHeight radius)

def ColliderDesc.capsule (halfHeight radius : ℚ) : ColliderDesc :=
  ColliderDesc.ofShape (Shape.capsule halfHeight radius)

def ColliderDesc.cone (halfHeight radius : ℚ) : ColliderDesc :=
  ColliderDesc.ofShape (Shape.cone halfHeight radius)

/-- Descriptor built by `CuboidCollider` (Physics.tsx:444-457):
`RAPIER.ColliderDesc.cuboid(width / 2, height / 2, depth / 2)`. -/
def CuboidCollider (width height depth : ℚ) : ColliderDesc :=
  ColliderDesc.cuboid (width / 2) (height / 2) (depth / 2)

/-- Descriptor built by `BallCollider` (Physics.tsx:487-491):
`RAPIER.ColliderDesc.ball(radius)`. -/
def BallCollider (radius : ℚ) : ColliderDesc :=
  ColliderDesc.ball radius

/-- Descriptor built by `CylinderCollider` (Physics.tsx:521-533):
`RAPIER.ColliderDesc.cylinder(height / 2, radius)`. -/
def CylinderCollider (radius height : ℚ) : ColliderDesc :=
  ColliderDesc.cylinder (height / 2) radius

/-- Descriptor built by `CapsuleCollider` (Physics.tsx:561-573):
`RAPIER.ColliderDesc.capsule(radius, height / 2)` — note the argument
order actually present in the source. -/
def CapsuleCollider (radius height : ℚ) : ColliderDesc :=
  ColliderDesc.capsule radius (height / 2)

/-- Descriptor built by `ConeCollider` (Physics.tsx:602-610):
`RAPIER.ColliderDesc.cone(height / 2, radius)`. -/
def ConeCollider (radius height : ℚ) : ColliderDesc :=
  ColliderDesc.cone (height / 2) radius

/-- Collider options accepted by `useCollider` (Physics.tsx:312-321).
`onCollide` is the identity of the callback, or `none` when absent. -/
structure ColliderProps where
  position : Option Vec3
  quaternion : Option Quat
  rotation : Option Euler
  friction : Option ℚ
  restitution : Option ℚ
  density : Option ℚ
  onCollide : Option ℕ
deriving DecidableEq

/-- Value of `shouldCollidersListenForContactEvents` published through
`RigidBodyContext` by `RigidBody` (Physics.tsx:285-293):
`hasEventListeners = !!onCollide`. -/
def shouldCollidersListenForContactEvents (onCollide : Option ℕ) : Bool :=
  onCollide.isSome

/-- Statement `if (position) { desc.setTranslation(...arr) }` of
`useCollider` (Physics.tsx:357-362). -/
def applyPosition (props : ColliderProps) (d : ColliderDesc) : ColliderDesc :=
  match props.position with
  | some p => { d with translation := p }
  | none => d

/-- Statements Physics.tsx:364-380: `const quat = new Quaternion()`, then
`if (rotation) quat.setFromEuler(euler)`, then `if (quaternion)`
overwrite `quat` with the explicit quaternion. -/
def resolveColliderQuat (setFromEuler : Euler → Quat)
    (props : ColliderProps) : Quat :=
  let quat := identityQuat
  let quat :=
    match props.rotation with
    | some r => setFromEuler r
    | none => quat
  match props.quaternion with
  | some q => q
  | none => quat

/-- Statement `desc.setRotation(quat)` of `useCollider` (Physics.tsx:382). -/
def applyRotation (setFromEuler : Euler → Quat) (props : ColliderProps)
    (d : ColliderDesc) : ColliderDesc :=
  { d with rotation := resolveColliderQuat setFromEuler props }

/-- Statement `if (friction) { desc.setFriction(friction) }` of
`useCollider` (Physics.tsx:384-386).  The JS truthiness guard means a
supplied 0 is falsy and skips the setter. -/
def applyFriction (props : ColliderProps) (d : ColliderDesc) : ColliderDesc :=
  match props.friction with
  | some f => if f = 0 then d else { d with friction := some f }
  | none => d

/-- Statement `if (restitution) { desc.setRestitution(restitution) }` of
`useCollider` (Physics.tsx:388-390), with the same truthiness guard. -/
def applyRestitution (props : ColliderProps) (d : ColliderDesc) :
    ColliderDesc :=
  match props.restitution with
  | some r => if r = 0 then d else { d with restitution := some r }
  | none => d

/-- Statement `if (density) { desc.setDensity(density) }` of `useCollider`
(Physics.tsx:392-394), with the same truthiness guard. -/
def applyDensity (props : ColliderProps) (d : ColliderDesc) : ColliderDesc :=
  match props.density with
  | some s => if s = 0 then d else { d with density := some s }
  | none => d

/-- Statement Physics.tsx:396-398: `if (shouldListenForContactEvents ||
shouldCollidersListenForContactEvents)
desc.setActiveEvents(RAPIER.ActiveEvents.CONTACT_EVENTS)`, where
`shouldListenForContactEvents = !!onCollide` (Physics.tsx:348). -/
def applyActiveEvents (props : ColliderProps) (shouldCollidersListen : Bool)
    (d : ColliderDesc) : ColliderDesc :=
  if props.onCollide.isSome || shouldCollidersListen then
    { d with activeEvents := true }
  else d

/-- Shallow embedding of the descriptor construction performed inside
`useCollider` (Physics.tsx:350-403): the sequence of mutations the source
applies to the descriptor returned by the shape callback, in source order.
`setFromEuler` stands for three.js `Quaternion.setFromEuler`, an external
collaborator. -/
def useColliderDesc (setFromEuler : Euler → Quat) (props : ColliderProps)
    (shouldCollidersListen : Bool) (desc0 : ColliderDesc) : ColliderDesc :=
  applyActiveEvents props shouldCollidersListen
    (applyDensity props
      (applyRestitution props
        (applyFriction props
          (applyRotation setFromEuler props
            (applyPosition props desc0)))))

/-- Quaternion resolution performed by `RigidBody` (Physics.tsx:216-234):
explicit quaternion first, otherwise derived from the Euler rotation,
otherwise the identity. -/
def rotationQuat (setFromEuler : Euler → Quat) (quaternion : Option Quat)
    (rotation : Option Euler) : Quat :=
  match quaternion with
  | some q => q
  | none =>
    match rotation with
    | some r => setFromEuler r
    | none => identityQuat

/-- Kind component of the composite event key built by `uuid(type, id)`
(Physics.tsx:40-42): the `type` strings are `rigidBody` and `collider`. -/
inductive EventKind where
  | rigidBody
  | collider
deriving DecidableEq

/-- Composite event-registry key `(kind, handle)`, standing for the string
key produced by `uuid`. -/
abbrev EventKey := EventKind × ℕ

/-- An entry of the `events` registry (PhysicsContextValue, Physics.tsx:
53-59): an optional begin callback and an optional end callback, each
identified by an opaque callback identity. -/
structure Listener where
  onCollideBegin : Option ℕ
  onCollideEnd : Option ℕ
deriving DecidableEq

/-- Subscription performed by `RigidBody`'s effect (Physics.tsx:278-283):
`events.set(uuid('rigidBody', handle), { onCollideBegin: onCollide })`. -/
def rigidBodySubscribe (events : List (EventKey × Listener)) (handle : ℕ)
    (onCollide : ℕ) : List (EventKey × Listener) :=
  mapSet events (EventKind.rigidBody, handle)
    { onCollideBegin := some onCollide, onCollideEnd := none }

/-- Subscription performed by `useCollider`'s effect (Physics.tsx:422-427):
`events.set(uuid('collider', handle), { onCollideBegin: onCollide })`. -/
def colliderSubscribe (events : List (EventKey × Listener)) (handle : ℕ)
    (onCollide : ℕ) : List (EventKey × Listener) :=
  mapSet events (EventKind.collider, handle)
    { onCollideBegin := some onCollide, onCollideEnd := none }

/-- A body pose as read back from the simulation each tick
(`rigidBody.translation()` / `rigidBody.rotation()`). -/
structure Pose where
  position : Vec3
  quaternion : Quat
deriving DecidableEq

/-- State of one rigid body as observed by the frame loop after `step()`:
its handle, its post-step pose, and the `isSleeping()` / `isStatic()`
flags. -/
structure BodyState where
  handle : ℕ
  pose : Pose
  isSleeping : Bool
  isStatic : Bool
deriving DecidableEq

/-- One record drained from the engine's contact-event queue:
`(handle1, handle2, started)`. -/
structure ContactEvent where
  handle1 : ℕ
  handle2 : ℕ
  started : Bool
deriving DecidableEq

/-- The engine's contribution to one tick, treated as an oracle: the bodies
`forEachActiveRigidBody` iterates after `step()`, the contact events the
queue holds, and the `world.getCollider(h).parent()` lookup. -/
structure EngineFrame where
  activeBodies : List BodyState
  contactEvents : List ContactEvent
  parent : ℕ → ℕ

/-- The context registries shared through `PhysicsContextValue`
(Physics.tsx:48-60). -/
structure Registries where
  bodies : List (ℕ × ℕ)
  colliders : List (ℕ × ℕ)
  events : List (EventKey × Listener)

/-- Scene state: the local transform of every scene node. -/
abbrev SceneState := ℕ → Pose

/-- Trace of the observable operations one tick performs, in order. -/
inductive Op where
  | step
  | poseWrite (node : ℕ) (pose : Pose)
  | drain
  | dispatch (cb : ℕ) (target : ℕ)
deriving DecidableEq

/-- The guarded callback invocation pattern used on each line of the drain
callback (Physics.tsx:130-138), e.g.
`collider1 && event1?.onCollideBegin?.({ target: collider1 })`: the
callback runs only when both the scene node and the callback are present;
otherwise the line is a no-op. -/
def optionCall (target : Option ℕ) (cb : Option ℕ) : List Op :=
  match target, cb with
  | some t, some c => [Op.dispatch c t]
  | _, _ => []

/-- Shallow embedding of the `drainContactEvents` callback body
(Physics.tsx:115-139) for one drained record. -/
def dispatchEvent (events : List (EventKey × Listener))
    (colliders bodies : List (ℕ × ℕ)) (parent : ℕ → ℕ)
    (e : ContactEvent) : List Op :=
  let body1Handle := parent e.handle1
  let body2Handle := parent e.handle2
  let event1 := mapGet events (EventKind.collider, e.handle1)
  let event2 := mapGet events (EventKind.collider, e.handle2)
  let bodyEvent1 := mapGet events (EventKind.rigidBody, body1Handle)
  let bodyEvent2 := mapGet events (EventKind.rigidBody, body2Handle)
  let collider1 := mapGet colliders e.handle1
  let collider2 := mapGet colliders e.handle2
  let body1 := mapGet bodies body1Handle
  let body2 := mapGet bodies body2Handle
  if e.started then
    optionCall collider1 (event1.bind Listener.onCollideBegin)
      ++ optionCall collider2 (event2.bind Listener.onCollideBegin)
      ++ optionCall body1 (bodyEvent1.bind Listener.onCollideBegin)
      ++ optionCall body2 (bodyEvent2.bind Listener.onCollideBegin)
  else
    optionCall collider1 (event1.bind Listener.onCollideEnd)
      ++ optionCall collider2 (event2.bind Listener.onCollideEnd)
      ++ optionCall body1 (bodyEvent1.bind Listener.onCollideEnd)
      ++ optionCall body2 (bodyEvent2.bind Listener.onCollideEnd)

/-- Shallow embedding of the pose-propagation loop (Physics.tsx:103-113):
for each body the engine iterates, look its scene node up in the `bodies`
registry and, when the node exists and the body is neither asleep nor
static, copy the body's translation and rotation into the node. -/
def forEachActiveRigidBody (bodies : List (ℕ × ℕ)) :
    SceneState → List BodyState → SceneState × List Op
  | scene, [] => (scene, [])
  | scene, rb :: rest =>
    match mapGet bodies rb.handle with
    | some node =>
      if !rb.isSleeping && !rb.isStatic then
        let scene' : SceneState := fun n => if n = node then rb.pose else scene n
        let res := forEachActiveRigidBody bodies scene' rest
        (res.1, Op.poseWrite node rb.pose :: res.2)
      else
        forEachActiveRigidBody bodies scene rest
    | none => forEachActiveRigidBody bodies scene rest

/-- Shallow embedding of `eventQueue.drainContactEvents(...)`
(Physics.tsx:115-140): one drain of the queue, dispatching each drained
record in order. -/
def drainContactEvents (frame : EngineFrame) (reg : Registries) : List Op :=
  Op.drain ::
    frame.contactEvents.flatMap
      (dispatchEvent reg.events reg.colliders reg.bodies frame.parent)

/-- Shallow embedding of the whole per-frame callback (Physics.tsx:100-141):
`world.step(eventQueue)`, then the active-body pose propagation, then the
contact-event drain, in that order. -/
def tick (frame : EngineFrame) (reg : Registries) (scene : SceneState) :
    SceneState × List Op :=
  let stepOps : List Op := [Op.step]
  let poses := forEachActiveRigidBody reg.bodies scene frame.activeBodies
  let drainOps := drainContactEvents frame reg
  (poses.1, stepOps ++ poses.2 ++ drainOps)

/-- Phase selection of the drain callback: contact-begin callbacks are used
when `started` is true, contact-end callbacks otherwise
(Physics.tsx:129-139). -/
def phaseCallback (started : Bool) (l : Listener) : Option ℕ :=
  if started then l.onCollideBegin else l.onCollideEnd

/-- Claim C1: the heightfield mesh builder is a deterministic pure function
(identical inputs give identical vertex and index sequences); its index list
covers the `R*C` cells with two triangles per cell wound `(i1,i3,i2)` then
`(i3,i4,i2)` using the corner-index formulas of the specification; and for
`R = 1`, `C = 1`, `heights = [0,0,0,0]`, `scale = (2,1,2)` the vertices are
the four corners of a flat 2×2 quad centred at the origin and the indices
equal `[0,2,1,2,3,1]`. -/
theorem geometryFromHeightfield_spec :
    (∀ (nrows ncols : ℕ) (heights : ℕ → ℚ) (scale : Vec3),
        geometryFromHeightfield nrows ncols heights scale =
          geometryFromHeightfield nrows ncols heights scale
        ∧ (geometryFromHeightfield nrows ncols heights scale).2 =
            heightfieldIndicesSpec nrows ncols)
    ∧ (geometryFromHeightfield 1 1 (fun _ => 0) ⟨2, 1, 2⟩).1 =
        [-1, 0, -1, -1, 0, 1, 1, 0, -1, 1, 0, 1]
    ∧ (geometryFromHeightfield 1 1 (fun _ => 0) ⟨2, 1, 2⟩).2 =
        [0, 2, 1, 2, 3, 1] := by
  refine ⟨fun nrows ncols heights scale => ⟨rfl, rfl⟩, ?_, ?_⟩
  · simp [geometryFromHeightfield, List.range_succ]
    norm_num
  · decide

theorem mapGet_map_replace {α β : Type} [DecidableEq α]
    (m : List (α × β)) (k k' : α) (v : β) :
    mapGet (m.map fun kv => if kv.1 = k then (k, v) else kv) k' =
      if k' = k then (if (mapGet m k).isSome then some v else none)
      else mapGet m k' := by
  induction m with
  | nil => simp [mapGet]
  | cons kv rest ih =>
    obtain ⟨a, b⟩ := kv
    simp only [List.map_cons]
    by_cases hk : a = k
    · rw [if_pos hk]
      by_cases hk' : k' = k
      · subst hk'
        simp [mapGet, hk]
      · have hkk : ¬k = k' := fun h => hk' h.symm
        simp [mapGet, hk, hk', hkk, ih]
    · rw [if_neg hk]
      by_cases hkv : a = k'
      · have hk'k : ¬k' = k := fun h => hk (hkv.trans h)
        simp [mapGet, hk, hkv, hk'k]
      · simp [mapGet, hk, hkv, ih]

theorem mapGet_append {α β : Type} [DecidableEq α]
    (m l : List (α × β)) (k : α) :
    mapGet (m ++ l) k =
      match mapGet m k with
      | some v => some v
      | none => mapGet l k := by
  induction m with
  | nil => simp [mapGet]
  | cons kv rest ih =>
    obtain ⟨a, b⟩ := kv
    by_cases hkv : a = k <;> simp [mapGet, hkv, ih]

/-- Lookup after `Map.set`: the written key reads back the new value, every
other key is untouched. -/
theorem mapGet_mapSet {α β : Type} [DecidableEq α]
    (m : List (α × β)) (k k' : α) (v : β) :
    mapGet (mapSet m k v) k' = if k' = k then some v else mapGet m k' := by
  unfold mapSet
  by_cases hs : (mapGet m k).isSome
  · rw [if_pos hs, mapGet_map_replace]
    by_cases hk' : k' = k <;> simp [hk', hs]
  · rw [if_neg hs, mapGet_append]
    by_cases hk' : k' = k
    · subst hk'
      have hnone : mapGet m k' = none := by
        cases h : mapGet m k' <;> simp [h] at hs ⊢
      simp [hnone, mapGet]
    · have hkk : ¬k = k' := fun h => hk' h.symm
      cases h : mapGet m k' <;> simp [h, mapGet, hk', hkk]

/-- A successful lookup comes from an entry of the list. -/
theorem mapGet_mem {α β : Type} [DecidableEq α]
    {m : List (α × β)} {k : α} {v : β} (h : mapGet m k = some v) :
    (k, v) ∈ m := by
  induction m with
  | nil => simp [mapGet] at h
  | cons kv rest ih =>
    obtain ⟨a, b⟩ := kv
    by_cases hkv : a = k
    · simp [mapGet, hkv] at h
      subst hkv
      subst h
      exact List.mem_cons_self _ _
    · simp [mapGet, hkv] at h
      exact List.mem_cons_of_mem _ (ih h)

/-- Claim C3 counterexample: registering a handle that is already present
does not surface any error — `registerBody` is a total function with no
error result — and it silently overwrites the existing handle-to-node
entry: after registering node 1 under handle 7 and then node 2 under the
same handle, the registry maps handle 7 to node 2.  No
`DuplicateRegistrationError` (or any other error value) exists anywhere in
the code. -/
theorem registerBody_duplicate_overwrites :
    mapGet (registerBody (registerBody [] 7 1) 7 2) 7 = some 2
    ∧ mapGet (registerBody [] 7 1) 7 = some 1 := by
  constructor <;> decide

/-- Claim C3 (amended): a `registerBody` or `registerCollider` operation
whose handle is already present silently overwrites the existing
handle-to-scene-node entry (last write wins) and leaves every other handle's
entry unchanged; no error is raised. -/
theorem register_last_write_wins :
    ∀ (m : List (ℕ × ℕ)) (handle node other : ℕ),
      mapGet (registerBody m handle node) other =
        (if other = handle then some node else mapGet m other)
      ∧ mapGet (registerCollider m handle node) other =
        (if other = handle then some node else mapGet m other) :=
  fun m handle node other =>
    ⟨mapGet_mapSet m handle other node, mapGet_mapSet m handle other node⟩

@[simp]
theorem applyPosition_rotation (props : ColliderProps) (d : ColliderDesc) :
    (applyPosition props d).rotation = d.rotation := by
  cases h : props.position <;> simp [applyPosition, h]

@[simp]
theorem applyPosition_friction (props : ColliderProps) (d : ColliderDesc) :
    (applyPosition props d).friction = d.friction := by
  cases h : props.position <;> simp [applyPosition, h]

@[simp]
theorem applyPosition_restitution (props : ColliderProps) (d : ColliderDesc) :
    (applyPosition props d).restitution = d.restitution := by
  cases h : props.position <;> simp [applyPosition, h]

@[simp]
theorem applyPosition_density (props : ColliderProps) (d : ColliderDesc) :
    (applyPosition props d).density = d.density := by
  cases h : props.position <;> simp [applyPosition, h]

@[simp]
theorem applyPosition_activeEvents (props : ColliderProps)
    (d : ColliderDesc) :
    (applyPosition props d).activeEvents = d.activeEvents := by
  cases h : props.position <;> simp [applyPosition, h]

@[simp]
theorem applyRotation_rotation (setFromEuler : Euler → Quat)
    (props : ColliderProps) (d : ColliderDesc) :
    (applyRotation setFromEuler props d).rotation =
      resolveColliderQuat setFromEuler props := rfl

@[simp]
theorem applyRotation_friction (setFromEuler : Euler → Quat)
    (props : ColliderProps) (d : ColliderDesc) :
    (applyRotation setFromEuler props d).friction = d.friction := rfl

@[simp]
theorem applyRotation_restitution (setFromEuler : Euler → Quat)
    (props : ColliderProps) (d : ColliderDesc) :
    (applyRotation setFromEuler props d).restitution = d.restitution := rfl

@[simp]
theorem applyRotation_density (setFromEuler : Euler → Quat)
    (props : ColliderProps) (d : ColliderDesc) :
    (applyRotation setFromEuler props d).density = d.density := rfl

@[simp]
theorem applyRotation_activeEvents (setFromEuler : Euler → Quat)
    (props : ColliderProps) (d : ColliderDesc) :
    (applyRotation setFromEuler props d).activeEvents = d.activeEvents := rfl

@[simp]
theorem applyFriction_friction (props : ColliderProps) (d : ColliderDesc) :
    (applyFriction props d).friction =
      match props.friction with
      | some f => if f = 0 then d.friction else some f
      | none => d.friction := by
  cases h : props.friction <;> simp [applyFriction, h] <;> split_ifs <;> rfl

@[simp]
theorem applyFriction_rotation (props : ColliderProps) (d : ColliderDesc) :
    (applyFriction props d).rotation = d.rotation := by
  cases h : props.friction <;> simp [applyFriction, h] <;> split_ifs <;> rfl

@[simp]
theorem applyFriction_restitution (props : ColliderProps) (d : ColliderDesc) :
    (applyFriction props d).restitution = d.restitution := by
  cases h : props.friction <;> simp [applyFriction, h] <;> split_ifs <;> rfl

@[simp]
theorem applyFriction_density (props : ColliderProps) (d : ColliderDesc) :
    (applyFriction props d).density = d.density := by
  cases h : props.friction <;> simp [applyFriction, h] <;> split_ifs <;> rfl

@[simp]
theorem applyFriction_activeEvents (props : ColliderProps)
    (d : ColliderDesc) :
    (applyFriction props d).activeEvents = d.activeEvents := by
  cases h : props.friction <;> simp [applyFriction, h] <;> split_ifs <;> rfl

@[simp]
theorem applyRestitution_restitution (props : ColliderProps)
    (d : ColliderDesc) :
    (applyRestitution props d).restitution =
      match props.restitution with
      | some r => if r = 0 then d.restitution else some r
      | none => d.restitution := by
  cases h : props.restitution <;> simp [applyRestitution, h] <;>
    split_ifs <;> rfl

@[simp]
theorem applyRestitution_rotation (props : ColliderProps)
    (d : ColliderDesc) :
    (applyRestitution props d).rotation = d.rotation := by
  cases h : props.restitution <;> simp [applyRestitution, h] <;>
    split_ifs <;> rfl

@[simp]
theorem applyRestitution_friction (props : ColliderProps)
    (d : ColliderDesc) :
    (applyRestitution props d).friction = d.friction := by
  cases h : props.restitution <;> simp [applyRestitution, h] <;>
    split_ifs <;> rfl

@[simp]
theorem applyRestitution_density (props : ColliderProps)
    (d : ColliderDesc) :
    (applyRestitution props d).density = d.density := by
  cases h : props.restitution <;> simp [applyRestitution, h] <;>
    split_ifs <;> rfl

@[simp]
theorem applyRestitution_activeEvents (props : ColliderProps)
    (d : ColliderDesc) :
    (applyRestitution props d).activeEvents = d.activeEvents := by
  cases h : props.restitution <;> simp [applyRestitution, h] <;>
    split_ifs <;> rfl

@[simp]
theorem applyDensity_density (props : ColliderProps) (d : ColliderDesc) :
    (applyDensity props d).density =
      match props.density with
      | some s => if s = 0 then d.density else some s
      | none => d.density := by
  cases h : props.density <;> simp [applyDensity, h] <;> split_ifs <;> rfl

@[simp]
theorem applyDensity_rotation (props : ColliderProps) (d : ColliderDesc) :
    (applyDensity props d).rotation = d.rotation := by
  cases h : props.density <;> simp [applyDensity, h] <;> split_ifs <;> rfl

@[simp]
theorem applyDensity_friction (props : ColliderProps) (d : ColliderDesc) :
    (applyDensity props d).friction = d.friction := by
  cases h : props.density <;> simp [applyDensity, h] <;> split_ifs <;> rfl

@[simp]
theorem applyDensity_restitution (props : ColliderProps) (d : ColliderDesc) :
    (applyDensity props d).restitution = d.restitution := by
  cases h : props.density <;> simp [applyDensity, h] <;> split_ifs <;> rfl

@[simp]
theorem applyDensity_activeEvents (props : ColliderProps)
    (d : ColliderDesc) :
    (applyDensity props d).activeEvents = d.activeEvents := by
  cases h : props.density <;> simp [applyDensity, h] <;> split_ifs <;> rfl

@[simp]
theorem applyActiveEvents_activeEvents (props : ColliderProps) (sc : Bool)
    (d : ColliderDesc) :
    (applyActiveEvents props sc d).activeEvents =
      (props.onCollide.isSome || sc || d.activeEvents) := by
  unfold applyActiveEvents
  split_ifs with h <;> simp_all

@[simp]
theorem applyActiveEvents_rotation (props : ColliderProps) (sc : Bool)
    (d : ColliderDesc) :
    (applyActiveEvents props sc d).rotation = d.rotation := by
  unfold applyActiveEvents
  split_ifs <;> rfl

@[simp]
theorem applyActiveEvents_friction (props : ColliderProps) (sc : Bool)
    (d : ColliderDesc) :
    (applyActiveEvents props sc d).friction = d.friction := by
  unfold applyActiveEvents
  split_ifs <;> rfl

@[simp]
theorem applyActiveEvents_restitution (props : ColliderProps) (sc : Bool)
    (d : ColliderDesc) :
    (applyActiveEvents props sc d).restitution = d.restitution := by
  unfold applyActiveEvents
  split_ifs <;> rfl

@[simp]
theorem applyActiveEvents_density (props : ColliderProps) (sc : Bool)
    (d : ColliderDesc) :
    (applyActiveEvents props sc d).density = d.density := by
  unfold applyActiveEvents
  split_ifs <;> rfl

theorem useColliderDesc_activeEvents_eq (setFromEuler : Euler → Quat)
    (props : ColliderProps) (sc : Bool) (d0 : ColliderDesc) :
    (useColliderDesc setFromEuler props sc d0).activeEvents =
      (props.onCollide.isSome || sc || d0.activeEvents) := by
  simp [useColliderDesc]

theorem useColliderDesc_rotation_eq (setFromEuler : Euler → Quat)
    (props : ColliderProps) (sc : Bool) (d0 : ColliderDesc) :
    (useColliderDesc setFromEuler props sc d0).rotation =
      resolveColliderQuat setFromEuler props := by
  simp [useColliderDesc]

theorem useColliderDesc_friction_eq (setFromEuler : Euler → Quat)
    (props : ColliderProps) (sc : Bool) (d0 : ColliderDesc) :
    (useColliderDesc setFromEuler props sc d0).friction =
      match props.friction with
      | some f => if f = 0 then d0.friction else some f
      | none => d0.friction := by
  simp [useColliderDesc]

theorem useColliderDesc_restitution_eq (setFromEuler : Euler → Quat)
    (props : ColliderProps) (sc : Bool) (d0 : ColliderDesc) :
    (useColliderDesc setFromEuler props sc d0).restitution =
      match props.restitution with
      | some r => if r = 0 then d0.restitution else some r
      | none => d0.restitution := by
  simp [useColliderDesc]

theorem useColliderDesc_density_eq (setFromEuler : Euler → Quat)
    (props : ColliderProps) (sc : Bool) (d0 : ColliderDesc) :
    (useColliderDesc setFromEuler props sc d0).density =
      match props.density with
      | some s => if s = 0 then d0.density else some s
      | none => d0.density := by
  simp [useColliderDesc]

/-- Claim C2: for every collider built via `useCollider`, the descriptor's
contact-event flag is set if and only if the collider's own `onCollide`
callback is present OR the parent `RigidBody` has an `onCollide` subscriber
(whose presence is published as `shouldCollidersListenForContactEvents`).
The hypothesis records that the shape constructor hands over a descriptor
with the flag off, as every engine constructor does. -/
theorem useColliderDesc_activeEvents_iff
    (setFromEuler : Euler → Quat) (props : ColliderProps)
    (bodyOnCollide : Option ℕ) (d0 : ColliderDesc)
    (h : d0.activeEvents = false) :
    (useColliderDesc setFromEuler props
        (shouldCollidersListenForContactEvents bodyOnCollide) d0).activeEvents
        = true
      ↔ (props.onCollide.isSome = true ∨ bodyOnCollide.isSome = true) := by
  rw [useColliderDesc_activeEvents_eq, h,
    shouldCollidersListenForContactEvents]
  simp

/-- Claim C2 witness: a collider with no `onCollide` of its own, attached to
a body that does have one, still gets the contact-event flag. -/
theorem useColliderDesc_activeEvents_iff_witness :
    (BallCollider 1).activeEvents = false
    ∧ (useColliderDesc (fun _ => identityQuat)
        ⟨none, none, none, none, none, none, none⟩
        (shouldCollidersListenForContactEvents (some 3))
        (BallCollider 1)).activeEvents = true :=
  ⟨rfl,
    (useColliderDesc_activeEvents_iff (fun _ => identityQuat)
        ⟨none, none, none, none, none, none, none⟩ (some 3)
        (BallCollider 1) rfl).mpr (Or.inr rfl)⟩

/-- Claim C6: when both a quaternion and an Euler rotation are supplied, the
orientation applied to the body or collider descriptor is the explicit
quaternion; the rotation-derived quaternion is used only when no quaternion
is supplied, and with neither the identity quaternion is used.  Stated for
the `RigidBody` resolution (`rotationQuat`, Physics.tsx:216-234) and for
the `useCollider` descriptor construction (Physics.tsx:364-382). -/
theorem quaternion_overrides_rotation :
    ∀ (setFromEuler : Euler → Quat) (q : Quat) (r : Euler)
      (props : ColliderProps) (sc : Bool) (d0 : ColliderDesc),
      rotationQuat setFromEuler (some q) (some r) = q
      ∧ rotationQuat setFromEuler (some q) none = q
      ∧ rotationQuat setFromEuler none (some r) = setFromEuler r
      ∧ rotationQuat setFromEuler none none = identityQuat
      ∧ (useColliderDesc setFromEuler { props with quaternion := some q }
          sc d0).rotation = q
      ∧ (useColliderDesc setFromEuler
          { props with quaternion := none, rotation := some r }
          sc d0).rotation = setFromEuler r
      ∧ (useColliderDesc setFromEuler
          { props with quaternion := none, rotation := none }
          sc d0).rotation = identityQuat := by
  intro setFromEuler q r props sc d0
  refine ⟨rfl, rfl, rfl, rfl, ?_, ?_, ?_⟩ <;>
    simp [useColliderDesc_rotation_eq, resolveColliderQuat]

/-- Claim C8 evaluation: `CapsuleCollider` with `args = [radius 1, height 4]`
hands the engine `capsule(halfHeight = 1, radius = 2)` — the radius lands in
the half-height slot and `height/2` in the radius slot — whereas cylinder
and cone pass `(height/2, radius)`; the claimed descriptor
`capsule(halfHeight = 2, radius = 1)` is not what the code builds. -/
theorem capsuleCollider_swaps_args :
    (CapsuleCollider 1 4).shape = Shape.capsule 1 2
    ∧ (CylinderCollider 1 4).shape = Shape.cylinder 2 1
    ∧ (ConeCollider 1 4).shape = Shape.cone 2 1
    ∧ ¬(CapsuleCollider 1 4).shape = Shape.capsule 2 1 := by
  refine ⟨?_, ?_, ?_, ?_⟩ <;>
    simp [CapsuleCollider, CylinderCollider, ConeCollider,
      ColliderDesc.capsule, ColliderDesc.cylinder, ColliderDesc.cone,
      ColliderDesc.ofShape] <;> norm_num

/-- Claim C9 counterexample: a collider whose options explicitly supply
`friction = 0`, `restitution = 0`, `density = 0` ends up with none of them
applied — the built descriptor keeps the engine defaults (`none`) because
the JS truthiness guards `if (friction)` etc. treat 0 as unset. -/
theorem useColliderDesc_zero_material_ignored :
    (useColliderDesc (fun _ => identityQuat)
        ⟨none, none, none, some 0, some 0, some 0, none⟩ false
        (BallCollider 1)).friction = none
    ∧ (useColliderDesc (fun _ => identityQuat)
        ⟨none, none, none, some 0, some 0, some 0, none⟩ false
        (BallCollider 1)).restitution = none
    ∧ (useColliderDesc (fun _ => identityQuat)
        ⟨none, none, none, some 0, some 0, some 0, none⟩ false
        (BallCollider 1)).density = none
    ∧ ¬(useColliderDesc (fun _ => identityQuat)
        ⟨none, none, none, some 0, some 0, some 0, none⟩ false
        (BallCollider 1)).friction = some 0 := by
  refine ⟨?_, ?_, ?_, ?_⟩ <;>
    simp [useColliderDesc_friction_eq, useColliderDesc_restitution_eq,
      useColliderDesc_density_eq, BallCollider, ColliderDesc.ball,
      ColliderDesc.ofShape]

/-- Claim C9 (amended): an explicitly supplied nonzero friction,
restitution, or density is applied to the built descriptor; a supplied 0 is
treated like an unset option (JS truthiness) and the engine's built-in
default is kept, as it is when the option is absent. -/
theorem useColliderDesc_material_truthy
    (setFromEuler : Euler → Quat) (props : ColliderProps) (sc : Bool)
    (d0 : ColliderDesc) (v : ℚ) (hv : ¬v = 0) :
    (useColliderDesc setFromEuler { props with friction := some v }
        sc d0).friction = some v
    ∧ (useColliderDesc setFromEuler { props with restitution := some v }
        sc d0).restitution = some v
    ∧ (useColliderDesc setFromEuler { props with density := some v }
        sc d0).density = some v
    ∧ (useColliderDesc setFromEuler { props with friction := none }
        sc d0).friction = d0.friction
    ∧ (useColliderDesc setFromEuler { props with friction := some 0 }
        sc d0).friction = d0.friction
    ∧ (useColliderDesc setFromEuler { props with restitution := none }
        sc d0).restitution = d0.restitution
    ∧ (useColliderDesc setFromEuler { props with restitution := some 0 }
        sc d0).restitution = d0.restitution
    ∧ (useColliderDesc setFromEuler { props with density := none }
        sc d0).density = d0.density
    ∧ (useColliderDesc setFromEuler { props with density := some 0 }
        sc d0).density = d0.density := by
  refine ⟨?_, ?_, ?_, ?_, ?_, ?_, ?_, ?_, ?_⟩ <;>
    simp [useColliderDesc_friction_eq, useColliderDesc_restitution_eq,
      useColliderDesc_density_eq, hv]

/-- Claim C9 witness: a supplied nonzero friction of 1/2 is applied. -/
theorem useColliderDesc_material_truthy_witness :
    ¬(1 : ℚ)/2 = 0
    ∧ (useColliderDesc (fun _ => identityQuat)
        ⟨none, none, none, some (1/2), none, none, none⟩ false
        (BallCollider 1)).friction = some (1/2) :=
  ⟨by norm_num,
    (useColliderDesc_material_truthy (fun _ => identityQuat)
        ⟨none, none, none, none, none, none, none⟩ false
        (BallCollider 1) (1/2) (by norm_num)).1⟩

theorem optionCall_ops {op : Op} {t c : Option ℕ} (h : op ∈ optionCall t c) :
    ∃ cb target, op = Op.dispatch cb target := by
  cases t <;> cases c <;> simp [optionCall] at h
  exact ⟨_, _, h⟩

theorem dispatchEvent_ops (events : List (EventKey × Listener))
    (colliders bodies : List (ℕ × ℕ)) (parent : ℕ → ℕ) (e : ContactEvent) :
    ∀ op ∈ dispatchEvent events colliders bodies parent e,
      ∃ cb target, op = Op.dispatch cb target := by
  intro op hop
  unfold dispatchEvent at hop
  cases hs : e.started <;> simp [hs] at hop <;>
    rcases hop with h | h | h | h <;> exact optionCall_ops h

theorem forEachActiveRigidBody_ops (bodies : List (ℕ × ℕ))
    (l : List BodyState) :
    ∀ (scene : SceneState),
      ∀ op ∈ (forEachActiveRigidBody bodies scene l).2,
        ∃ node pose, op = Op.poseWrite node pose := by
  induction l with
  | nil =>
    intro scene op hop
    simp [forEachActiveRigidBody] at hop
  | cons rb rest ih =>
    intro scene op hop
    cases hm : mapGet bodies rb.handle with
    | none =>
      simp only [forEachActiveRigidBody, hm] at hop
      exact ih scene op hop
    | some node =>
      by_cases hs : (!rb.isSleeping && !rb.isStatic) = true
      · simp only [forEachActiveRigidBody, hm, hs, if_true] at hop
        rcases List.mem_cons.mp hop with h | h
        · exact ⟨node, rb.pose, h⟩
        · exact ih _ op h
      · simp only [forEachActiveRigidBody, hm, if_neg hs] at hop
        exact ih scene op hop

/-- Claim C4: within every tick, `step()` completes before the active-body
pose propagation, which completes before the contact-event drain and
listener dispatch, which completes before the tick finishes; the trace of
one tick is exactly one step operation followed by all the pose writes,
then exactly one drain followed by the dispatches. -/
theorem tick_phase_order :
    ∀ (frame : EngineFrame) (reg : Registries) (scene : SceneState),
      ∃ poseOps dispOps : List Op,
        (tick frame reg scene).2 = Op.step :: (poseOps ++ Op.drain :: dispOps)
        ∧ (∀ op ∈ poseOps, ∃ node pose, op = Op.poseWrite node pose)
        ∧ (∀ op ∈ dispOps, ∃ cb target, op = Op.dispatch cb target)
        ∧ (tick frame reg scene).2.countP (fun op => decide (op = Op.drain))
            = 1
        ∧ (tick frame reg scene).2.countP (fun op => decide (op = Op.step))
            = 1 := by
  intro frame reg scene
  have hposes : ∀ op ∈ (forEachActiveRigidBody reg.bodies scene
      frame.activeBodies).2, ∃ node pose, op = Op.poseWrite node pose :=
    forEachActiveRigidBody_ops reg.bodies frame.activeBodies scene
  have hdisps : ∀ op ∈ frame.contactEvents.flatMap
      (dispatchEvent reg.events reg.colliders reg.bodies frame.parent),
      ∃ cb target, op = Op.dispatch cb target := by
    intro op hop
    rw [List.mem_flatMap] at hop
    obtain ⟨e, _, hop⟩ := hop
    exact dispatchEvent_ops _ _ _ _ _ op hop
  have hT : (tick frame reg scene).2 =
      Op.step :: ((forEachActiveRigidBody reg.bodies scene
        frame.activeBodies).2 ++ Op.drain :: frame.contactEvents.flatMap
          (dispatchEvent reg.events reg.colliders reg.bodies frame.parent)) := by
    simp [tick, drainContactEvents]
  refine ⟨_, _, hT, hposes, hdisps, ?_, ?_⟩
  · rw [hT, List.countP_cons, List.countP_append, List.countP_cons]
    have h1 : (forEachActiveRigidBody reg.bodies scene
        frame.activeBodies).2.countP (fun op => decide (op = Op.drain)) = 0 := by
      rw [List.countP_eq_zero]
      intro op hop
      obtain ⟨node, pose, rfl⟩ := hposes op hop
      simp
    have h2 : (frame.contactEvents.flatMap
        (dispatchEvent reg.events reg.colliders reg.bodies
          frame.parent)).countP (fun op => decide (op = Op.drain)) = 0 := by
      rw [List.countP_eq_zero]
      intro op hop
      obtain ⟨cb, target, rfl⟩ := hdisps op hop
      simp
    simp [h1, h2]
  · rw [hT, List.countP_cons, List.countP_append, List.countP_cons]
    have h1 : (forEachActiveRigidBody reg.bodies scene
        frame.activeBodies).2.countP (fun op => decide (op = Op.step)) = 0 := by
      rw [List.countP_eq_zero]
      intro op hop
      obtain ⟨node, pose, rfl⟩ := hposes op hop
      simp
    have h2 : (frame.contactEvents.flatMap
        (dispatchEvent reg.events reg.colliders reg.bodies
          frame.parent)).countP (fun op => decide (op = Op.step)) = 0 := by
      rw [List.countP_eq_zero]
      intro op hop
      obtain ⟨cb, target, rfl⟩ := hdisps op hop
      simp
    simp [h1, h2]

/-- Claim C4 witness: the phase decomposition at a concrete tick. -/
theorem tick_phase_order_witness :
    ∃ poseOps dispOps : List Op,
      (tick ⟨[], [], fun _ => 0⟩ ⟨[], [], []⟩
          (fun _ => ⟨⟨0, 0, 0⟩, identityQuat⟩)).2 =
        Op.step :: (poseOps ++ Op.drain :: dispOps)
      ∧ (∀ op ∈ poseOps, ∃ node pose, op = Op.poseWrite node pose)
      ∧ (∀ op ∈ dispOps, ∃ cb target, op = Op.dispatch cb target)
      ∧ (tick ⟨[], [], fun _ => 0⟩ ⟨[], [], []⟩
          (fun _ => ⟨⟨0, 0, 0⟩, identityQuat⟩)).2.countP
            (fun op => decide (op = Op.drain)) = 1
      ∧ (tick ⟨[], [], fun _ => 0⟩ ⟨[], [], []⟩
          (fun _ => ⟨⟨0, 0, 0⟩, identityQuat⟩)).2.countP
            (fun op => decide (op = Op.step)) = 1 :=
  tick_phase_order ⟨[], [], fun _ => 0⟩ ⟨[], [], []⟩
    (fun _ => ⟨⟨0, 0, 0⟩, identityQuat⟩)

theorem forEachActiveRigidBody_unchanged (bodies : List (ℕ × ℕ))
    (l : List BodyState) :
    ∀ (scene : SceneState) (n : ℕ),
      (∀ rb ∈ l, mapGet bodies rb.handle = some n →
        rb.isSleeping = true ∨ rb.isStatic = true) →
      (forEachActiveRigidBody bodies scene l).1 n = scene n := by
  induction l with
  | nil => intro scene n _; rfl
  | cons rb rest ih =>
    intro scene n h
    cases hm : mapGet bodies rb.handle with
    | none =>
      simp only [forEachActiveRigidBody, hm]
      exact ih scene n fun b hb => h b (List.mem_cons_of_mem _ hb)
    | some node =>
      by_cases hs : (!rb.isSleeping && !rb.isStatic) = true
      · have hnn : ¬n = node := by
          intro he
          have hflag := h rb (List.mem_cons_self _ _) (by rw [he]; exact hm)
          rcases hflag with h1 | h1 <;> simp [h1] at hs
        simp only [forEachActiveRigidBody, hm, hs, if_true]
        rw [ih _ n fun b hb => h b (List.mem_cons_of_mem _ hb)]
        simp [hnn]
      · simp only [forEachActiveRigidBody, hm, if_neg hs]
        exact ih scene n fun b hb => h b (List.mem_cons_of_mem _ hb)

/-- Claim C5: during a tick's pose propagation, a scene node is written only
for a body that is neither asleep nor static; the transform of a node all of
whose associated bodies are sleeping or static — and of any node with no
registry entry pointing at it — is left unchanged by the tick. -/
theorem tick_skips_inactive_bodies (frame : EngineFrame) (reg : Registries)
    (scene : SceneState) (n : ℕ)
    (h : ∀ rb ∈ frame.activeBodies, mapGet reg.bodies rb.handle = some n →
      rb.isSleeping = true ∨ rb.isStatic = true) :
    (tick frame reg scene).1 n = scene n :=
  forEachActiveRigidBody_unchanged reg.bodies frame.activeBodies scene n h

/-- Claim C5 witness: a static body registered to node 5 leaves node 5's
transform untouched over a tick. -/
theorem tick_skips_inactive_bodies_witness :
    (∀ rb ∈ [BodyState.mk 0 ⟨⟨1, 2, 3⟩, identityQuat⟩ false true],
        mapGet [(0, 5)] rb.handle = some 5 →
        rb.isSleeping = true ∨ rb.isStatic = true)
    ∧ (tick ⟨[BodyState.mk 0 ⟨⟨1, 2, 3⟩, identityQuat⟩ false true], [],
          fun _ => 0⟩
        ⟨[(0, 5)], [], []⟩
        (fun _ => ⟨⟨0, 0, 0⟩, identityQuat⟩)).1 5 = ⟨⟨0, 0, 0⟩, identityQuat⟩ :=
  ⟨by decide,
    tick_skips_inactive_bodies
      ⟨[BodyState.mk 0 ⟨⟨1, 2, 3⟩, identityQuat⟩ false true], [], fun _ => 0⟩
      ⟨[(0, 5)], [], []⟩ (fun _ => ⟨⟨0, 0, 0⟩, identityQuat⟩) 5 (by decide)⟩

@[simp]
theorem optionCall_none_left (cb : Option ℕ) : optionCall none cb = [] := rfl

@[simp]
theorem optionCall_none_right (target : Option ℕ) :
    optionCall target none = [] := by
  cases target <;> rfl

/-- Claim C7: event dispatch during `drainContactEvents` never raises — the
embedding of the callback body is a total function — and each of the four
deliveries of a drained event happens independently: the dispatch output is
the concatenation of four guarded invocations, and an invocation whose
scene-node lookup or whose listener (phase callback) lookup comes back
empty contributes nothing, while the remaining invocations still occur. -/
theorem dispatchEvent_skips_missing :
    ∀ (events : List (EventKey × Listener)) (colliders bodies : List (ℕ × ℕ))
      (parent : ℕ → ℕ) (e : ContactEvent),
      dispatchEvent events colliders bodies parent e =
        optionCall (mapGet colliders e.handle1)
          ((mapGet events (EventKind.collider, e.handle1)).bind
            (phaseCallback e.started))
        ++ optionCall (mapGet colliders e.handle2)
          ((mapGet events (EventKind.collider, e.handle2)).bind
            (phaseCallback e.started))
        ++ optionCall (mapGet bodies (parent e.handle1))
          ((mapGet events (EventKind.rigidBody, parent e.handle1)).bind
            (phaseCallback e.started))
        ++ optionCall (mapGet bodies (parent e.handle2))
          ((mapGet events (EventKind.rigidBody, parent e.handle2)).bind
            (phaseCallback e.started))
      ∧ (∀ cb, optionCall none cb = [])
      ∧ (∀ target, optionCall target none = [])
      ∧ (∀ target cb, optionCall (some target) (some cb)
          = [Op.dispatch cb target]) := by
  intro events colliders bodies parent e
  refine ⟨?_, fun cb => rfl, fun target => by cases target <;> rfl,
    fun target cb => rfl⟩
  cases hs : e.started <;>
    simp [dispatchEvent, phaseCallback, hs, List.append_assoc]

/-- Claim C10: every event-registry entry created by `RigidBody` or
`useCollider` carries only a begin-phase callback — `onCollideEnd` is always
`none` — and consequently, over any registry whose entries all come from
those operations, the end-phase branch of the drain loop delivers nothing:
a contact-end transition reaches no application callback. -/
theorem onCollideEnd_never_registered :
    ∀ (events : List (EventKey × Listener)) (handle cbId : ℕ)
      (ev : List (EventKey × Listener)) (colliders bodies : List (ℕ × ℕ))
      (parent : ℕ → ℕ) (e : ContactEvent),
      mapGet (rigidBodySubscribe events handle cbId)
          (EventKind.rigidBody, handle)
        = some { onCollideBegin := some cbId, onCollideEnd := none }
      ∧ mapGet (colliderSubscribe events handle cbId)
          (EventKind.collider, handle)
        = some { onCollideBegin := some cbId, onCollideEnd := none }
      ∧ ((∀ p ∈ ev, (Prod.snd p).onCollideEnd = none) → e.started = false →
          dispatchEvent ev colliders bodies parent e = []) := by
  intro events handle cbId ev colliders bodies parent e
  refine ⟨?_, ?_, ?_⟩
  · rw [rigidBodySubscribe, mapGet_mapSet]
    simp
  · rw [colliderSubscribe, mapGet_mapSet]
    simp
  · intro hend hs
    have hbind : ∀ k : EventKey,
        (mapGet ev k).bind Listener.onCollideEnd = none := by
      intro k
      cases hk : mapGet ev k with
      | none => rfl
      | some l =>
        have hl : l.onCollideEnd = none := hend (k, l) (mapGet_mem hk)
        simp [hl]
    simp [dispatchEvent, hs, hbind]

/-- Claim C10 witness: a registry populated by one body subscription and one
collider subscription has no end callbacks, and an end-phase contact event
between registered handles delivers nothing. -/
theorem onCollideEnd_never_registered_witness :
    (∀ p ∈ colliderSubscribe (rigidBodySubscribe [] 1 10) 2 20,
        (Prod.snd p).onCollideEnd = none)
    ∧ dispatchEvent (colliderSubscribe (rigidBodySubscribe [] 1 10) 2 20)
        [(2, 5)] [(1, 6)] (fun _ => 1) ⟨2, 2, false⟩ = [] :=
  ⟨by decide,
    (onCollideEnd_never_registered [] 1 10
        (colliderSubscribe (rigidBodySubscribe [] 1 10) 2 20)
        [(2, 5)] [(1, 6)] (fun _ => 1) ⟨2, 2, false⟩).2.2 (by decide) rfl⟩
